import Mathlib

/-!
Shallow embedding of the keypoint decision logic of the eat-medicine PoseNet
service.  The repository contains three revisions of the same Express handler:

* `src/index.js` — filters raw keypoints by detection score (`score < 0.5` is
  skipped), checks for the nose and for at least one wrist, picks the hand by
  right-priority (`kp.rightWrist || kp.leftWrist`), and with
  `THRESHOLD_DISTANCE = 1500` returns `{distance, accepted, confidence}`.
* `src/unnamed/part_001` and `src/unnamed/part_000` — no score filter and no
  wrist-presence check; the distance to a missing wrist defaults to
  `Infinity`, the closer wrist is selected (`Math.min` plus an equality test
  that tie-breaks toward the left wrist), and with `THRESHOLD_DISTANCE = 550`
  the handler returns `{closestHand, distance, accepted}`.

Coordinates and scores are modelled as real numbers; the JavaScript value
`Infinity`, which the two older revisions rely on, is modelled by `⊤ : EReal`.
`parseFloat(x.toFixed(n))` is modelled as rounding to `n` decimal places.
-/

namespace EatMedicine

/-- A 2D position, as produced by the pose estimator (`point.position`). -/
structure Point where
  x : ℝ
  y : ℝ

/-- The `kp` object built by each handler: at most one position for each of
the three parts of interest (`nose`, `leftWrist`, `rightWrist`). -/
structure KeypointSet where
  nose : Option Point
  leftWrist : Option Point
  rightWrist : Option Point

/-- The two domain-level failures of the handlers: the 400 responses
`"Nose not detected"` and `"No wrist detected"`. -/
inductive Rejection where
  | NoseNotDetected : Rejection
  | NoWristDetected : Rejection
deriving DecidableEq

/-- JS `parseFloat(x.toFixed(n))` for a finite number: round to `n` decimal
places (ties away from zero for the nonnegative values that occur here). -/
noncomputable def roundTo (n : ℕ) (x : ℝ) : ℝ :=
  ((round (x * 10 ^ n) : ℤ) : ℝ) / 10 ^ n

/-- The confidence line shared by the revisions:
`Math.max(0, 1 - d / THRESHOLD_DISTANCE)`, with the threshold abstracted so
that both constants (1500 and 550) instantiate it. -/
noncomputable def confidenceFormula (THRESHOLD_DISTANCE d : ℝ) : ℝ :=
  max 0 (1 - d / THRESHOLD_DISTANCE)

namespace IndexJs

/-- Helper `dist` from `src/index.js`: `Math.sqrt(dx*dx + dy*dy)`. -/
noncomputable def dist (a b : Point) : ℝ :=
  Real.sqrt ((a.x - b.x) * (a.x - b.x) + (a.y - b.y) * (a.y - b.y))

/-- Constant `THRESHOLD_DISTANCE = 1500` of `src/index.js`. -/
def THRESHOLD_DISTANCE : ℝ := 1500

/-- Constant `ACCEPTANCE_THRESHOLD = 0.1` of `src/index.js`. -/
def ACCEPTANCE_THRESHOLD : ℝ := 0.1

/-- One entry of `pose.keypoints`: a part name, a detection score and a
position. -/
structure RawKeypoint where
  part : String
  score : ℝ
  position : Point

/-- One iteration of the keypoint loop of `src/index.js`:
`if (point.score < 0.5) continue;` followed by the membership test of
`point.part` in `["nose", "leftWrist", "rightWrist"]` and the assignment
`kp[point.part] = point.position`. -/
noncomputable def updateKp (kp : KeypointSet) (point : RawKeypoint) : KeypointSet :=
  if point.score < 0.5 then kp
  else if point.part = "nose" then { kp with nose := some point.position }
  else if point.part = "leftWrist" then { kp with leftWrist := some point.position }
  else if point.part = "rightWrist" then { kp with rightWrist := some point.position }
  else kp

/-- The whole keypoint loop of `src/index.js`, starting from the empty
object `const kp = {}`. -/
noncomputable def buildKp (keypoints : List RawKeypoint) : KeypointSet :=
  keypoints.foldl updateKp ⟨none, none, none⟩

/-- Line `const nearestHand = kp.rightWrist || kp.leftWrist;` — the right wrist
whenever present, otherwise the left wrist. -/
def nearestHand (kp : KeypointSet) : Option Point :=
  match kp.rightWrist with
  | some p => some p
  | none => kp.leftWrist

/-- The JSON object returned by `src/index.js` on success. -/
structure Result where
  distance : ℝ
  accepted : Bool
  confidence : ℝ

/-- The decision logic of the `src/index.js` handler after the keypoint set
has been built: nose check, wrist-presence check, right-priority hand
selection, confidence and acceptance. -/
noncomputable def decide (kp : KeypointSet) : Except Rejection Result :=
  match kp.nose with
  | none => .error .NoseNotDetected
  | some nosePos =>
    match nearestHand kp with
    | none => .error .NoWristDetected
    | some hand =>
      let d := dist hand nosePos
      let confidence := confidenceFormula THRESHOLD_DISTANCE d
      .ok { distance := roundTo 2 d
            accepted := if ACCEPTANCE_THRESHOLD ≤ confidence then true else false
            confidence := roundTo 3 confidence }

end IndexJs

namespace Part001

/-- Helper `dist` from `src/unnamed/part_001`: `Math.sqrt(dx*dx + dy*dy)`. -/
noncomputable def dist (a b : Point) : ℝ :=
  Real.sqrt ((a.x - b.x) * (a.x - b.x) + (a.y - b.y) * (a.y - b.y))

/-- Constant `THRESHOLD_DISTANCE = 550` of `src/unnamed/part_001`. -/
def THRESHOLD_DISTANCE : EReal := ((550 : ℝ) : EReal)

/-- Constant `ACCEPTANCE_THRESHOLD = 0.1` of `src/unnamed/part_001`. -/
def ACCEPTANCE_THRESHOLD : EReal := ((0.1 : ℝ) : EReal)

/-- Line `const distLeft = kp.leftWrist ? dist(kp.leftWrist, kp.nose) : Infinity;` -/
noncomputable def distLeft (kp : KeypointSet) (nosePos : Point) : EReal :=
  match kp.leftWrist with
  | some p => ((dist p nosePos : ℝ) : EReal)
  | none => ⊤

/-- Line `const distRight = kp.rightWrist ? dist(kp.rightWrist, kp.nose) : Infinity;` -/
noncomputable def distRight (kp : KeypointSet) (nosePos : Point) : EReal :=
  match kp.rightWrist with
  | some p => ((dist p nosePos : ℝ) : EReal)
  | none => ⊤

/-- Line `const minDist = Math.min(distLeft, distRight);` -/
noncomputable def minDist (kp : KeypointSet) (nosePos : Point) : EReal :=
  min (distLeft kp nosePos) (distRight kp nosePos)

/-- Line `const closestHand = minDist === distLeft ? "leftWrist" : "rightWrist";` -/
noncomputable def closestHand (kp : KeypointSet) (nosePos : Point) : String :=
  if minDist kp nosePos = distLeft kp nosePos then "leftWrist" else "rightWrist"

/-- Line `const confidenceDecimal = Math.max(0, 1 - minDist / THRESHOLD_DISTANCE);` -/
noncomputable def confidenceDecimal (minDist : EReal) : EReal :=
  max 0 (1 - minDist / THRESHOLD_DISTANCE)

/-- JS `parseFloat(x.toFixed(n))` on a possibly infinite number:
`Infinity.toFixed(n)` is `"Infinity"` and parses back to `Infinity`. -/
noncomputable def roundE (n : ℕ) (x : EReal) : EReal :=
  if x = ⊤ then ⊤ else if x = ⊥ then ⊥ else ((roundTo n x.toReal : ℝ) : EReal)

/-- The JSON object returned by `src/unnamed/part_001` on success (this
revision does not include a `confidence` field). -/
structure Result where
  closestHand : String
  distance : EReal
  accepted : Bool

/-- The decision logic of the `src/unnamed/part_001` handler after the
keypoint set has been built: nose check only, infinity defaults for the
wrist distances, nearest-of-both selection with a tie-break toward the left
wrist, confidence and acceptance. -/
noncomputable def decide (kp : KeypointSet) : Except Rejection Result :=
  match kp.nose with
  | none => .error .NoseNotDetected
  | some nosePos =>
    .ok { closestHand := closestHand kp nosePos
          distance := roundE 2 (minDist kp nosePos)
          accepted :=
            if ACCEPTANCE_THRESHOLD ≤ confidenceDecimal (minDist kp nosePos)
            then true else false }

end Part001

namespace Part000

/-- Helper `euclideanDistance` from `src/unnamed/part_000`:
`Math.sqrt((a.x - b.x) ** 2 + (a.y - b.y) ** 2)`. -/
noncomputable def euclideanDistance (a b : Point) : ℝ :=
  Real.sqrt ((a.x - b.x) ^ 2 + (a.y - b.y) ^ 2)

/-- Constant `THRESHOLD_DISTANCE = 550` of `src/unnamed/part_000`. -/
def THRESHOLD_DISTANCE : EReal := ((550 : ℝ) : EReal)

/-- Constant `ACCEPTANCE_THRESHOLD = 0.1` of `src/unnamed/part_000`. -/
def ACCEPTANCE_THRESHOLD : EReal := ((0.1 : ℝ) : EReal)

/-- Line `const distLeft = kp.leftWrist ? euclideanDistance(kp.leftWrist, kp.nose) : Infinity;` -/
noncomputable def distLeft (kp : KeypointSet) (nosePos : Point) : EReal :=
  match kp.leftWrist with
  | some p => ((euclideanDistance p nosePos : ℝ) : EReal)
  | none => ⊤

/-- Line `const distRight = kp.rightWrist ? euclideanDistance(kp.rightWrist, kp.nose) : Infinity;` -/
noncomputable def distRight (kp : KeypointSet) (nosePos : Point) : EReal :=
  match kp.rightWrist with
  | some p => ((euclideanDistance p nosePos : ℝ) : EReal)
  | none => ⊤

/-- Line `const minDist = Math.min(distLeft, distRight);` -/
noncomputable def minDist (kp : KeypointSet) (nosePos : Point) : EReal :=
  min (distLeft kp nosePos) (distRight kp nosePos)

/-- Line `const closestHand = minDist === distLeft ? "leftWrist" : "rightWrist";` -/
noncomputable def closestHand (kp : KeypointSet) (nosePos : Point) : String :=
  if minDist kp nosePos = distLeft kp nosePos then "leftWrist" else "rightWrist"

/-- Line `const confidenceDecimal = Math.max(0, 1 - minDist / THRESHOLD_DISTANCE);` -/
noncomputable def confidenceDecimal (minDist : EReal) : EReal :=
  max 0 (1 - minDist / THRESHOLD_DISTANCE)

/-- JS `parseFloat(x.toFixed(n))` on a possibly infinite number. -/
noncomputable def roundE (n : ℕ) (x : EReal) : EReal :=
  if x = ⊤ then ⊤ else if x = ⊥ then ⊥ else ((roundTo n x.toReal : ℝ) : EReal)

/-- The JSON object returned by `src/unnamed/part_000` on success. -/
structure Result where
  closestHand : String
  distance : EReal
  accepted : Bool

/-- The decision logic of the `src/unnamed/part_000` handler after the
keypoint set has been built; it coincides with `part_001` except for the
name and the `** 2` spelling of the distance helper. -/
noncomputable def decide (kp : KeypointSet) : Except Rejection Result :=
  match kp.nose with
  | none => .error .NoseNotDetected
  | some nosePos =>
    .ok { closestHand := closestHand kp nosePos
          distance := roundE 2 (minDist kp nosePos)
          accepted :=
            if ACCEPTANCE_THRESHOLD ≤ confidenceDecimal (minDist kp nosePos)
            then true else false }

end Part000

/-! ### Reduction helpers -/

/-- Unfolding of the `index.js` decision when the nose and the right wrist
are present: the right wrist is the selected hand. -/
theorem IndexJs.decide_right_eq (nosePos r : Point) (lw : Option Point) :
    IndexJs.decide ⟨some nosePos, lw, some r⟩ =
      Except.ok
        { distance := roundTo 2 (IndexJs.dist r nosePos)
          accepted :=
            if IndexJs.ACCEPTANCE_THRESHOLD ≤
                confidenceFormula IndexJs.THRESHOLD_DISTANCE (IndexJs.dist r nosePos)
            then true else false
          confidence :=
            roundTo 3 (confidenceFormula IndexJs.THRESHOLD_DISTANCE (IndexJs.dist r nosePos)) } :=
  rfl

/-- Unfolding of the `index.js` decision when the nose and only the left
wrist are present: the left wrist is the selected hand. -/
theorem IndexJs.decide_left_eq (nosePos l : Point) :
    IndexJs.decide ⟨some nosePos, some l, none⟩ =
      Except.ok
        { distance := roundTo 2 (IndexJs.dist l nosePos)
          accepted :=
            if IndexJs.ACCEPTANCE_THRESHOLD ≤
                confidenceFormula IndexJs.THRESHOLD_DISTANCE (IndexJs.dist l nosePos)
            then true else false
          confidence :=
            roundTo 3 (confidenceFormula IndexJs.THRESHOLD_DISTANCE (IndexJs.dist l nosePos)) } :=
  rfl

/-- Unfolding of the `part_001` decision when the nose is present. -/
theorem Part001.decide_some_eq (nosePos : Point) (lw rw : Option Point) :
    Part001.decide ⟨some nosePos, lw, rw⟩ =
      Except.ok
        { closestHand := Part001.closestHand ⟨some nosePos, lw, rw⟩ nosePos
          distance := Part001.roundE 2 (Part001.minDist ⟨some nosePos, lw, rw⟩ nosePos)
          accepted :=
            if Part001.ACCEPTANCE_THRESHOLD ≤
                Part001.confidenceDecimal (Part001.minDist ⟨some nosePos, lw, rw⟩ nosePos)
            then true else false } :=
  rfl

/-- Unfolding of the `part_000` decision when the nose is present. -/
theorem Part000.decide_some_eq_p0 (nosePos : Point) (lw rw : Option Point) :
    Part000.decide ⟨some nosePos, lw, rw⟩ =
      Except.ok
        { closestHand := Part000.closestHand ⟨some nosePos, lw, rw⟩ nosePos
          distance := Part000.roundE 2 (Part000.minDist ⟨some nosePos, lw, rw⟩ nosePos)
          accepted :=
            if Part000.ACCEPTANCE_THRESHOLD ≤
                Part000.confidenceDecimal (Part000.minDist ⟨some nosePos, lw, rw⟩ nosePos)
            then true else false } :=
  rfl

/-- With both wrists present, the `part_001` hand selection is "left if its
distance is less than or equal to the distance of the right one, otherwise right". -/
theorem Part001.closestHand_both (nosePos l r : Point) :
    Part001.closestHand ⟨some nosePos, some l, some r⟩ nosePos =
      if Part001.dist l nosePos ≤ Part001.dist r nosePos then "leftWrist" else "rightWrist" := by
  by_cases h : Part001.dist l nosePos ≤ Part001.dist r nosePos
  · have hmin : min ((Part001.dist l nosePos : ℝ) : EReal) ((Part001.dist r nosePos : ℝ) : EReal)
        = ((Part001.dist l nosePos : ℝ) : EReal) :=
      min_eq_left (EReal.coe_le_coe_iff.2 h)
    simp [Part001.closestHand, Part001.minDist, Part001.distLeft, Part001.distRight, hmin, h]
  · have hlt : Part001.dist r nosePos < Part001.dist l nosePos := not_le.1 h
    have hmin : min ((Part001.dist l nosePos : ℝ) : EReal) ((Part001.dist r nosePos : ℝ) : EReal)
        = ((Part001.dist r nosePos : ℝ) : EReal) :=
      min_eq_right (EReal.coe_le_coe_iff.2 hlt.le)
    have hne : ((Part001.dist r nosePos : ℝ) : EReal) ≠ ((Part001.dist l nosePos : ℝ) : EReal) := by
      rw [ne_eq, EReal.coe_eq_coe_iff]
      exact hlt.ne
    simp [Part001.closestHand, Part001.minDist, Part001.distLeft, Part001.distRight, hmin, hne, h]

/-- With both wrists present, the `part_000` hand selection is "left if its
distance is less than or equal to the distance of the right one, otherwise right". -/
theorem Part000.closestHand_both_p0 (nosePos l r : Point) :
    Part000.closestHand ⟨some nosePos, some l, some r⟩ nosePos =
      if Part000.euclideanDistance l nosePos ≤ Part000.euclideanDistance r nosePos
      then "leftWrist" else "rightWrist" := by
  by_cases h : Part000.euclideanDistance l nosePos ≤ Part000.euclideanDistance r nosePos
  · have hmin : min ((Part000.euclideanDistance l nosePos : ℝ) : EReal)
        ((Part000.euclideanDistance r nosePos : ℝ) : EReal)
        = ((Part000.euclideanDistance l nosePos : ℝ) : EReal) :=
      min_eq_left (EReal.coe_le_coe_iff.2 h)
    simp [Part000.closestHand, Part000.minDist, Part000.distLeft, Part000.distRight, hmin, h]
  · have hlt : Part000.euclideanDistance r nosePos < Part000.euclideanDistance l nosePos :=
      not_le.1 h
    have hmin : min ((Part000.euclideanDistance l nosePos : ℝ) : EReal)
        ((Part000.euclideanDistance r nosePos : ℝ) : EReal)
        = ((Part000.euclideanDistance r nosePos : ℝ) : EReal) :=
      min_eq_right (EReal.coe_le_coe_iff.2 hlt.le)
    have hne : ((Part000.euclideanDistance r nosePos : ℝ) : EReal)
        ≠ ((Part000.euclideanDistance l nosePos : ℝ) : EReal) := by
      rw [ne_eq, EReal.coe_eq_coe_iff]
      exact hlt.ne
    simp [Part000.closestHand, Part000.minDist, Part000.distLeft, Part000.distRight, hmin, hne, h]

/-- The 3-4-5 distance for the `part_001` helper. -/
theorem Part001.dist_eval_345 : Part001.dist ⟨3, 4⟩ ⟨0, 0⟩ = 5 := by
  show Real.sqrt (((3:ℝ) - 0) * ((3:ℝ) - 0) + ((4:ℝ) - 0) * ((4:ℝ) - 0)) = 5
  rw [show ((3:ℝ) - 0) * ((3:ℝ) - 0) + ((4:ℝ) - 0) * ((4:ℝ) - 0) = 5 ^ 2 by norm_num]
  exact Real.sqrt_sq (by norm_num)

/-- The 6-8-10 distance for the `part_001` helper. -/
theorem Part001.dist_eval_6810 : Part001.dist ⟨6, 8⟩ ⟨0, 0⟩ = 10 := by
  show Real.sqrt (((6:ℝ) - 0) * ((6:ℝ) - 0) + ((8:ℝ) - 0) * ((8:ℝ) - 0)) = 10
  rw [show ((6:ℝ) - 0) * ((6:ℝ) - 0) + ((8:ℝ) - 0) * ((8:ℝ) - 0) = 10 ^ 2 by norm_num]
  exact Real.sqrt_sq (by norm_num)

/-- The 3-4-5 distance for the `part_000` helper. -/
theorem Part000.dist_eval_345_p0 : Part000.euclideanDistance ⟨3, 4⟩ ⟨0, 0⟩ = 5 := by
  show Real.sqrt (((3:ℝ) - 0) ^ 2 + ((4:ℝ) - 0) ^ 2) = 5
  rw [show ((3:ℝ) - 0) ^ 2 + ((4:ℝ) - 0) ^ 2 = 5 ^ 2 by norm_num]
  exact Real.sqrt_sq (by norm_num)

/-- The 6-8-10 distance for the `part_000` helper. -/
theorem Part000.dist_eval_6810_p0 : Part000.euclideanDistance ⟨6, 8⟩ ⟨0, 0⟩ = 10 := by
  show Real.sqrt (((6:ℝ) - 0) ^ 2 + ((8:ℝ) - 0) ^ 2) = 10
  rw [show ((6:ℝ) - 0) ^ 2 + ((8:ℝ) - 0) ^ 2 = 10 ^ 2 by norm_num]
  exact Real.sqrt_sq (by norm_num)

/-- Rounding a finite extended real to two places. -/
theorem Part001.roundE_coe_five : Part001.roundE 2 ((5 : ℝ) : EReal) = ((5 : ℝ) : EReal) := by
  unfold Part001.roundE
  rw [if_neg (EReal.coe_ne_top 5), if_neg (EReal.coe_ne_bot 5), EReal.toReal_coe]
  rw [show roundTo 2 (5 : ℝ) = 5 by norm_num [roundTo, round_eq, Int.floor_eq_iff]]

/-- Rounding a finite extended real to two places (`part_000` copy). -/
theorem Part000.roundE_coe_five_p0 : Part000.roundE 2 ((5 : ℝ) : EReal) = ((5 : ℝ) : EReal) := by
  unfold Part000.roundE
  rw [if_neg (EReal.coe_ne_top 5), if_neg (EReal.coe_ne_bot 5), EReal.toReal_coe]
  rw [show roundTo 2 (5 : ℝ) = 5 by norm_num [roundTo, round_eq, Int.floor_eq_iff]]

/-- The confidence of the nearest-of-both revisions at distance 5. -/
theorem Part001.confidenceDecimal_five :
    Part001.confidenceDecimal ((5 : ℝ) : EReal) = ((109 / 110 : ℝ) : EReal) := by
  unfold Part001.confidenceDecimal Part001.THRESHOLD_DISTANCE
  rw [show ((5:ℝ) : EReal) / ((550:ℝ) : EReal) = ((5 / 550 : ℝ) : EReal) from
      (EReal.coe_div 5 550).symm]
  rw [show (1 : EReal) - ((5 / 550 : ℝ) : EReal) = ((1 - 5 / 550 : ℝ) : EReal) from by
      rw [← EReal.coe_one, ← EReal.coe_sub]]
  rw [max_eq_right (EReal.coe_nonneg.2 (by norm_num))]
  exact EReal.coe_eq_coe_iff.2 (by norm_num)

/-- The confidence of the nearest-of-both revisions at distance 5
(`part_000` copy). -/
theorem Part000.confidenceDecimal_five_p0 :
    Part000.confidenceDecimal ((5 : ℝ) : EReal) = ((109 / 110 : ℝ) : EReal) := by
  unfold Part000.confidenceDecimal Part000.THRESHOLD_DISTANCE
  rw [show ((5:ℝ) : EReal) / ((550:ℝ) : EReal) = ((5 / 550 : ℝ) : EReal) from
      (EReal.coe_div 5 550).symm]
  rw [show (1 : EReal) - ((5 / 550 : ℝ) : EReal) = ((1 - 5 / 550 : ℝ) : EReal) from by
      rw [← EReal.coe_one, ← EReal.coe_sub]]
  rw [max_eq_right (EReal.coe_nonneg.2 (by norm_num))]
  exact EReal.coe_eq_coe_iff.2 (by norm_num)

/-- Effect of one loop iteration of `index.js` on the `nose` entry. -/
theorem IndexJs.updateKp_nose (kp : KeypointSet) (p : IndexJs.RawKeypoint) :
    (IndexJs.updateKp kp p).nose =
      if p.part = "nose" ∧ 0.5 ≤ p.score then some p.position else kp.nose := by
  unfold IndexJs.updateKp
  by_cases hs : p.score < 0.5
  · simp [hs, not_le.2 hs]
  · by_cases hn : p.part = "nose"
    · simp [hs, hn, not_lt.1 hs]
    · by_cases hl : p.part = "leftWrist"
      · simp [hs, hn, hl]
      · by_cases hr : p.part = "rightWrist"
        · simp [hs, hn, hl, hr]
        · simp [hs, hn, hl, hr]

/-- Effect of one loop iteration of `index.js` on the `leftWrist` entry. -/
theorem IndexJs.updateKp_leftWrist (kp : KeypointSet) (p : IndexJs.RawKeypoint) :
    (IndexJs.updateKp kp p).leftWrist =
      if p.part = "leftWrist" ∧ 0.5 ≤ p.score then some p.position else kp.leftWrist := by
  unfold IndexJs.updateKp
  by_cases hs : p.score < 0.5
  · simp [hs, not_le.2 hs]
  · by_cases hn : p.part = "nose"
    · simp [hs, hn, not_lt.1 hs]
    · by_cases hl : p.part = "leftWrist"
      · simp [hs, hn, hl, not_lt.1 hs]
      · by_cases hr : p.part = "rightWrist"
        · simp [hs, hn, hl, hr]
        · simp [hs, hn, hl, hr]

/-- Effect of one loop iteration of `index.js` on the `rightWrist` entry. -/
theorem IndexJs.updateKp_rightWrist (kp : KeypointSet) (p : IndexJs.RawKeypoint) :
    (IndexJs.updateKp kp p).rightWrist =
      if p.part = "rightWrist" ∧ 0.5 ≤ p.score then some p.position else kp.rightWrist := by
  unfold IndexJs.updateKp
  by_cases hs : p.score < 0.5
  · simp [hs, not_le.2 hs]
  · by_cases hn : p.part = "nose"
    · simp [hs, hn, not_lt.1 hs]
    · by_cases hl : p.part = "leftWrist"
      · simp [hs, hn, hl, not_lt.1 hs]
      · by_cases hr : p.part = "rightWrist"
        · simp [hs, hn, hl, hr, not_lt.1 hs]
        · simp [hs, hn, hl, hr]

/-- The `nose` entry is present after the loop iff some raw keypoint named
`"nose"` passes the score filter (or it was already present). -/
theorem IndexJs.foldl_updateKp_nose (pts : List IndexJs.RawKeypoint) (acc : KeypointSet) :
    (pts.foldl IndexJs.updateKp acc).nose.isSome = true
      ↔ acc.nose.isSome = true ∨ ∃ p ∈ pts, p.part = "nose" ∧ 0.5 ≤ p.score := by
  induction pts generalizing acc with
  | nil => simp
  | cons q qs ih =>
    rw [List.foldl_cons, ih, IndexJs.updateKp_nose]
    by_cases h : q.part = "nose" ∧ 0.5 ≤ q.score
    · simp [h]
    · simp [h]

/-- The `leftWrist` entry is present after the loop iff some raw keypoint
named `"leftWrist"` passes the score filter (or it was already present). -/
theorem IndexJs.foldl_updateKp_leftWrist (pts : List IndexJs.RawKeypoint) (acc : KeypointSet) :
    (pts.foldl IndexJs.updateKp acc).leftWrist.isSome = true
      ↔ acc.leftWrist.isSome = true ∨ ∃ p ∈ pts, p.part = "leftWrist" ∧ 0.5 ≤ p.score := by
  induction pts generalizing acc with
  | nil => simp
  | cons q qs ih =>
    rw [List.foldl_cons, ih, IndexJs.updateKp_leftWrist]
    by_cases h : q.part = "leftWrist" ∧ 0.5 ≤ q.score
    · simp [h]
    · simp [h]

/-- The `rightWrist` entry is present after the loop iff some raw keypoint
named `"rightWrist"` passes the score filter (or it was already present). -/
theorem IndexJs.foldl_updateKp_rightWrist (pts : List IndexJs.RawKeypoint) (acc : KeypointSet) :
    (pts.foldl IndexJs.updateKp acc).rightWrist.isSome = true
      ↔ acc.rightWrist.isSome = true ∨ ∃ p ∈ pts, p.part = "rightWrist" ∧ 0.5 ≤ p.score := by
  induction pts generalizing acc with
  | nil => simp
  | cons q qs ih =>
    rw [List.foldl_cons, ih, IndexJs.updateKp_rightWrist]
    by_cases h : q.part = "rightWrist" ∧ 0.5 ≤ q.score
    · simp [h]
    · simp [h]

/-! ### Claim theorems -/

/-- C1: the confidence computed by the engine is exactly
`max(0, 1 - distance / THRESHOLD_DISTANCE)`: it is `0` for every distance at
or beyond the threshold, equals `1` at distance `0`, decays linearly
(`1 - d / thr`) below the threshold, and the `confidence` field of the
`index.js` judgment is the 3-place rounding of this formula at the distance
of the selected hand. -/
theorem confidence_linear_decay (thr d : ℝ) (hthr : 0 < thr) :
    confidenceFormula thr d = max 0 (1 - d / thr)
    ∧ (thr ≤ d → confidenceFormula thr d = 0)
    ∧ confidenceFormula thr 0 = 1
    ∧ (0 ≤ d → d ≤ thr → confidenceFormula thr d = 1 - d / thr)
    ∧ (∀ nosePos w : Point,
        Except.map IndexJs.Result.confidence (IndexJs.decide ⟨some nosePos, none, some w⟩)
          = Except.ok (roundTo 3
              (confidenceFormula IndexJs.THRESHOLD_DISTANCE (IndexJs.dist w nosePos)))) := by
  refine ⟨rfl, ?_, ?_, ?_, ?_⟩
  · intro hd
    have h1 : (1 : ℝ) ≤ d / thr := (one_le_div hthr).2 hd
    exact max_eq_left (by linarith)
  · unfold confidenceFormula
    rw [zero_div, sub_zero]
    exact max_eq_right zero_le_one
  · intro h0 hd
    have h1 : d / thr ≤ 1 := (div_le_one hthr).2 hd
    exact max_eq_right (by linarith)
  · intro nosePos w
    rfl

/-- C1 witness: at `THRESHOLD_DISTANCE = 550`, a distance of `600` yields
confidence `0` and a distance of `0` yields confidence `1`. -/
theorem confidence_linear_decay_witness :
    confidenceFormula 550 600 = 0 ∧ confidenceFormula 550 0 = 1 :=
  ⟨(confidence_linear_decay 550 600 (by norm_num)).2.1 (by norm_num),
   (confidence_linear_decay 550 0 (by norm_num)).2.2.1⟩

/-- C2: in every computed judgment the acceptance flag is `true` exactly when
the unrounded confidence is at least `ACCEPTANCE_THRESHOLD`: for the three
successful shapes of the `index.js` engine (both wrists, left only, right
only), and for every successful run of the nearest-of-both `part_001`
engine. -/
theorem accepted_iff_confidence :
    (∀ nosePos l r : Point,
      Except.map IndexJs.Result.accepted (IndexJs.decide ⟨some nosePos, some l, some r⟩)
          = Except.ok true
        ↔ IndexJs.ACCEPTANCE_THRESHOLD ≤
            confidenceFormula IndexJs.THRESHOLD_DISTANCE (IndexJs.dist r nosePos))
    ∧ (∀ nosePos l : Point,
      Except.map IndexJs.Result.accepted (IndexJs.decide ⟨some nosePos, some l, none⟩)
          = Except.ok true
        ↔ IndexJs.ACCEPTANCE_THRESHOLD ≤
            confidenceFormula IndexJs.THRESHOLD_DISTANCE (IndexJs.dist l nosePos))
    ∧ (∀ nosePos r : Point,
      Except.map IndexJs.Result.accepted (IndexJs.decide ⟨some nosePos, none, some r⟩)
          = Except.ok true
        ↔ IndexJs.ACCEPTANCE_THRESHOLD ≤
            confidenceFormula IndexJs.THRESHOLD_DISTANCE (IndexJs.dist r nosePos))
    ∧ (∀ (nosePos : Point) (lw rw : Option Point),
      Except.map Part001.Result.accepted (Part001.decide ⟨some nosePos, lw, rw⟩)
          = Except.ok true
        ↔ Part001.ACCEPTANCE_THRESHOLD ≤
            Part001.confidenceDecimal (Part001.minDist ⟨some nosePos, lw, rw⟩ nosePos)) := by
  refine ⟨?_, ?_, ?_, ?_⟩
  · intro nosePos l r
    rw [IndexJs.decide_right_eq]
    split_ifs with h <;> simp [Except.map, h]
  · intro nosePos l
    rw [IndexJs.decide_left_eq]
    split_ifs with h <;> simp [Except.map, h]
  · intro nosePos r
    rw [IndexJs.decide_right_eq]
    split_ifs with h <;> simp [Except.map, h]
  · intro nosePos lw rw
    rw [Part001.decide_some_eq]
    split_ifs with h <;> simp [Except.map, h]

/-- C4: with the nose and both wrists present, the nearest-of-both revisions
select the wrist with the smaller Euclidean distance to the nose, and select
the left wrist when the two distances are exactly equal (the selected label
is `"leftWrist"` iff the left distance is `≤` the right one). -/
theorem nearest_of_both_min_tiebreak_left :
    ∀ nosePos l r : Point,
      Except.map Part001.Result.closestHand (Part001.decide ⟨some nosePos, some l, some r⟩)
        = Except.ok
            (if Part001.dist l nosePos ≤ Part001.dist r nosePos
             then "leftWrist" else "rightWrist")
      ∧ Except.map Part000.Result.closestHand (Part000.decide ⟨some nosePos, some l, some r⟩)
        = Except.ok
            (if Part000.euclideanDistance l nosePos ≤ Part000.euclideanDistance r nosePos
             then "leftWrist" else "rightWrist") := by
  intro nosePos l r
  constructor
  · rw [Part001.decide_some_eq]
    simp [Except.map, Part001.closestHand_both]
  · rw [Part000.decide_some_eq_p0]
    simp [Except.map, Part000.closestHand_both_p0]

/-- C5: the `index.js` revision selects the right wrist whenever it is
present (whatever the left wrist is) and falls back to the left wrist only
when the right is absent; the reported distance is the (rounded) distance
from the selected wrist to the nose. -/
theorem right_priority_selection :
    (∀ (kp : KeypointSet) (r : Point), kp.rightWrist = some r →
      IndexJs.nearestHand kp = some r)
    ∧ (∀ kp : KeypointSet, kp.rightWrist = none →
      IndexJs.nearestHand kp = kp.leftWrist)
    ∧ (∀ nosePos l r : Point,
      Except.map IndexJs.Result.distance (IndexJs.decide ⟨some nosePos, some l, some r⟩)
        = Except.ok (roundTo 2 (IndexJs.dist r nosePos)))
    ∧ (∀ nosePos l : Point,
      Except.map IndexJs.Result.distance (IndexJs.decide ⟨some nosePos, some l, none⟩)
        = Except.ok (roundTo 2 (IndexJs.dist l nosePos))) := by
  refine ⟨?_, ?_, ?_, ?_⟩
  · intro kp r h
    unfold IndexJs.nearestHand
    rw [h]
  · intro kp h
    unfold IndexJs.nearestHand
    rw [h]
  · intro nosePos l r
    rw [IndexJs.decide_right_eq]
    rfl
  · intro nosePos l
    rw [IndexJs.decide_left_eq]
    rfl

/-- C5 witness: on concrete keypoint sets, the hand selection prefers a
present right wrist and falls back to the left wrist when the right is
absent. -/
theorem right_priority_selection_witness :
    IndexJs.nearestHand ⟨none, some ⟨3, 4⟩, some ⟨1, 2⟩⟩ = some ⟨1, 2⟩
    ∧ IndexJs.nearestHand ⟨none, some ⟨3, 4⟩, none⟩ = some ⟨3, 4⟩ :=
  ⟨right_priority_selection.1 ⟨none, some ⟨3, 4⟩, some ⟨1, 2⟩⟩ ⟨1, 2⟩ rfl,
   right_priority_selection.2.1 ⟨none, some ⟨3, 4⟩, none⟩ rfl⟩

/-- C3: whenever the nose keypoint is absent, all three revisions fail with
`NoseNotDetected`, whatever the wrist fields hold, and no judgment is
produced. -/
theorem nose_absent_rejects : ∀ lw rw : Option Point,
    IndexJs.decide ⟨none, lw, rw⟩ = Except.error Rejection.NoseNotDetected
    ∧ Part001.decide ⟨none, lw, rw⟩ = Except.error Rejection.NoseNotDetected
    ∧ Part000.decide ⟨none, lw, rw⟩ = Except.error Rejection.NoseNotDetected :=
  fun _ _ => ⟨rfl, rfl, rfl⟩

/-- C6: in the `index.js` revision (the one with the wrist presence check),
a keypoint set with a nose but neither wrist fails with `NoWristDetected`,
which is distinct from `NoseNotDetected`. -/
theorem no_wrist_rejects : ∀ nosePos : Point,
    IndexJs.decide ⟨some nosePos, none, none⟩ = Except.error Rejection.NoWristDetected
    ∧ Rejection.NoWristDetected ≠ Rejection.NoseNotDetected :=
  fun _ => ⟨rfl, by decide⟩

/-- C7: on the keypoint set `nose=(0,0)`, `leftWrist=(3,4)`,
`rightWrist=(6,8)`, the nearest-of-both revisions compute distance 5 to the
left wrist and 10 to the right wrist, select the left wrist, and return
distance `5.00` and `accepted = true`; the computed confidence
`max(0, 1 - 5/550) = 109/110` rounds to `0.991` at three places. -/
theorem example_judgment_345 :
    Part001.dist ⟨3, 4⟩ ⟨0, 0⟩ = 5
    ∧ Part001.dist ⟨6, 8⟩ ⟨0, 0⟩ = 10
    ∧ Part001.decide ⟨some ⟨0, 0⟩, some ⟨3, 4⟩, some ⟨6, 8⟩⟩
        = Except.ok { closestHand := "leftWrist", distance := ((5 : ℝ) : EReal),
                      accepted := true }
    ∧ Part001.confidenceDecimal ((5 : ℝ) : EReal) = ((109 / 110 : ℝ) : EReal)
    ∧ roundTo 3 (109 / 110) = 0.991
    ∧ Part000.decide ⟨some ⟨0, 0⟩, some ⟨3, 4⟩, some ⟨6, 8⟩⟩
        = Except.ok { closestHand := "leftWrist", distance := ((5 : ℝ) : EReal),
                      accepted := true } := by
  have hmin1 : Part001.minDist ⟨some ⟨0, 0⟩, some ⟨3, 4⟩, some ⟨6, 8⟩⟩ ⟨0, 0⟩
      = ((5 : ℝ) : EReal) := by
    simp only [Part001.minDist, Part001.distLeft, Part001.distRight,
      Part001.dist_eval_345, Part001.dist_eval_6810]
    exact min_eq_left (EReal.coe_le_coe_iff.2 (by norm_num))
  have hch1 : Part001.closestHand ⟨some ⟨0, 0⟩, some ⟨3, 4⟩, some ⟨6, 8⟩⟩ ⟨0, 0⟩
      = "leftWrist" := by
    rw [Part001.closestHand_both, Part001.dist_eval_345, Part001.dist_eval_6810,
      if_pos (by norm_num : (5:ℝ) ≤ 10)]
  have hacc1 : Part001.ACCEPTANCE_THRESHOLD ≤ ((109 / 110 : ℝ) : EReal) := by
    unfold Part001.ACCEPTANCE_THRESHOLD
    exact EReal.coe_le_coe_iff.2 (by norm_num)
  have hmin0 : Part000.minDist ⟨some ⟨0, 0⟩, some ⟨3, 4⟩, some ⟨6, 8⟩⟩ ⟨0, 0⟩
      = ((5 : ℝ) : EReal) := by
    simp only [Part000.minDist, Part000.distLeft, Part000.distRight,
      Part000.dist_eval_345_p0, Part000.dist_eval_6810_p0]
    exact min_eq_left (EReal.coe_le_coe_iff.2 (by norm_num))
  have hch0 : Part000.closestHand ⟨some ⟨0, 0⟩, some ⟨3, 4⟩, some ⟨6, 8⟩⟩ ⟨0, 0⟩
      = "leftWrist" := by
    rw [Part000.closestHand_both_p0, Part000.dist_eval_345_p0, Part000.dist_eval_6810_p0,
      if_pos (by norm_num : (5:ℝ) ≤ 10)]
  have hacc0 : Part000.ACCEPTANCE_THRESHOLD ≤ ((109 / 110 : ℝ) : EReal) := by
    unfold Part000.ACCEPTANCE_THRESHOLD
    exact EReal.coe_le_coe_iff.2 (by norm_num)
  refine ⟨Part001.dist_eval_345, Part001.dist_eval_6810, ?_,
    Part001.confidenceDecimal_five, ?_, ?_⟩
  · rw [Part001.decide_some_eq, hch1, hmin1, Part001.roundE_coe_five,
      Part001.confidenceDecimal_five, if_pos hacc1]
  · norm_num [roundTo, round_eq, Int.floor_eq_iff]
  · rw [Part000.decide_some_eq_p0, hch0, hmin0, Part000.roundE_coe_five_p0,
      Part000.confidenceDecimal_five_p0, if_pos hacc0]

/-- C10: in the two revisions without a wrist presence check, a keypoint set
with a nose but no wrist still yields a judgment: both wrist distances
default to `Infinity` (`⊤`), the tie-break selects `"leftWrist"`, the
reported distance is `Infinity`, the computed confidence is `0`, and
`accepted = false`. -/
theorem no_wrist_default_judgment : ∀ nosePos : Point,
    Part001.decide ⟨some nosePos, none, none⟩
      = Except.ok { closestHand := "leftWrist", distance := (⊤ : EReal), accepted := false }
    ∧ Part001.minDist ⟨some nosePos, none, none⟩ nosePos = (⊤ : EReal)
    ∧ Part001.confidenceDecimal (⊤ : EReal) = 0
    ∧ Part000.decide ⟨some nosePos, none, none⟩
      = Except.ok { closestHand := "leftWrist", distance := (⊤ : EReal), accepted := false } := by
  intro nosePos
  have hmin1 : Part001.minDist ⟨some nosePos, none, none⟩ nosePos = (⊤ : EReal) := by
    simp [Part001.minDist, Part001.distLeft, Part001.distRight]
  have hconf1 : Part001.confidenceDecimal (⊤ : EReal) = 0 := by
    unfold Part001.confidenceDecimal Part001.THRESHOLD_DISTANCE
    rw [EReal.top_div_of_pos_ne_top (EReal.coe_pos.2 (by norm_num)) (EReal.coe_ne_top 550),
      EReal.sub_top]
    exact max_eq_left bot_le
  have hch1 : Part001.closestHand ⟨some nosePos, none, none⟩ nosePos = "leftWrist" := by
    unfold Part001.closestHand
    rw [if_pos]
    rw [hmin1]
    rfl
  have hnot1 : ¬ (Part001.ACCEPTANCE_THRESHOLD ≤ Part001.confidenceDecimal (⊤ : EReal)) := by
    rw [hconf1]
    unfold Part001.ACCEPTANCE_THRESHOLD
    rw [← EReal.coe_zero, EReal.coe_le_coe_iff]
    norm_num
  have hrnd1 : Part001.roundE 2 (⊤ : EReal) = ⊤ := by simp [Part001.roundE]
  have hmin0 : Part000.minDist ⟨some nosePos, none, none⟩ nosePos = (⊤ : EReal) := by
    simp [Part000.minDist, Part000.distLeft, Part000.distRight]
  have hconf0 : Part000.confidenceDecimal (⊤ : EReal) = 0 := by
    unfold Part000.confidenceDecimal Part000.THRESHOLD_DISTANCE
    rw [EReal.top_div_of_pos_ne_top (EReal.coe_pos.2 (by norm_num)) (EReal.coe_ne_top 550),
      EReal.sub_top]
    exact max_eq_left bot_le
  have hch0 : Part000.closestHand ⟨some nosePos, none, none⟩ nosePos = "leftWrist" := by
    unfold Part000.closestHand
    rw [if_pos]
    rw [hmin0]
    rfl
  have hnot0 : ¬ (Part000.ACCEPTANCE_THRESHOLD ≤ Part000.confidenceDecimal (⊤ : EReal)) := by
    rw [hconf0]
    unfold Part000.ACCEPTANCE_THRESHOLD
    rw [← EReal.coe_zero, EReal.coe_le_coe_iff]
    norm_num
  have hrnd0 : Part000.roundE 2 (⊤ : EReal) = ⊤ := by simp [Part000.roundE]
  refine ⟨?_, hmin1, hconf1, ?_⟩
  · rw [Part001.decide_some_eq, hch1, hmin1, hrnd1, if_neg hnot1]
  · rw [Part000.decide_some_eq_p0, hch0, hmin0, hrnd0, if_neg hnot0]

/-- C9: in the filtering revision (`index.js`), the keypoint set handed to
the decision logic contains exactly those of `nose`, `leftWrist`,
`rightWrist` for which some raw keypoint of that name has detection score
`≥ 0.5`: a keypoint with score exactly `0.5` is kept and one below `0.5` is
absent. -/
theorem keypoint_filter_keeps_score_ge_half : ∀ pts : List IndexJs.RawKeypoint,
    ((IndexJs.buildKp pts).nose.isSome = true
      ↔ ∃ p ∈ pts, p.part = "nose" ∧ 0.5 ≤ p.score)
    ∧ ((IndexJs.buildKp pts).leftWrist.isSome = true
      ↔ ∃ p ∈ pts, p.part = "leftWrist" ∧ 0.5 ≤ p.score)
    ∧ ((IndexJs.buildKp pts).rightWrist.isSome = true
      ↔ ∃ p ∈ pts, p.part = "rightWrist" ∧ 0.5 ≤ p.score) := by
  intro pts
  unfold IndexJs.buildKp
  refine ⟨?_, ?_, ?_⟩
  · rw [IndexJs.foldl_updateKp_nose]
    simp
  · rw [IndexJs.foldl_updateKp_leftWrist]
    simp
  · rw [IndexJs.foldl_updateKp_rightWrist]
    simp

/-- C8: the confidence is non-increasing in the distance — for the real
formula with any positive threshold, and for the extended-real
`confidenceDecimal` of the nearest-of-both revision. -/
theorem confidence_antitone :
    (∀ thr d1 d2 : ℝ, 0 < thr → d1 ≤ d2 →
      confidenceFormula thr d2 ≤ confidenceFormula thr d1)
    ∧ (∀ e1 e2 : EReal, e1 ≤ e2 →
      Part001.confidenceDecimal e2 ≤ Part001.confidenceDecimal e1) := by
  constructor
  · intro thr d1 d2 hthr h
    unfold confidenceFormula
    have h2 : d1 / thr ≤ d2 / thr := by gcongr
    exact max_le_max le_rfl (by linarith)
  · intro e1 e2 h
    unfold Part001.confidenceDecimal
    refine max_le_max le_rfl (EReal.sub_le_sub le_rfl ?_)
    rw [div_eq_mul_inv, div_eq_mul_inv]
    refine mul_le_mul_of_nonneg_right h (EReal.inv_nonneg_of_nonneg ?_)
    exact EReal.coe_nonneg.2 (by norm_num)

/-- C8 witness: with threshold `550`, the confidence at distance `10` is at
most the confidence at distance `5`, and `confidenceDecimal` at `⊤` is at
most its value at `5`. -/
theorem confidence_antitone_witness :
    confidenceFormula 550 10 ≤ confidenceFormula 550 5
    ∧ Part001.confidenceDecimal ⊤ ≤ Part001.confidenceDecimal ((5 : ℝ) : EReal) :=
  ⟨confidence_antitone.1 550 5 10 (by norm_num) (by norm_num),
   confidence_antitone.2 ((5 : ℝ) : EReal) ⊤ le_top⟩

end EatMedicine
